import Mathlib

/-!
Shallow embedding of the Predictive-Customer-Intelligence repository
(`src/pci_mock_logic.py`, `src/state_definition.py`, `src/langgraph_agent.py`,
`app.py`) and proofs of the specification claims about it.
-/

/-! ## String utilities

Python substring containment (`pat in s`) and per-character lowering
(`str.lower()`), modelled on lists of characters. -/

/-- Does the first list occur as a leading segment of the second?
Models Python `str.startswith`, used to implement substring containment. -/
def isStartOf : List Char → List Char → Bool
  | [], _ => true
  | _ :: _, [] => false
  | p :: ps, c :: cs => p == c && isStartOf ps cs

/-- Does the first list occur contiguously anywhere inside the second?
Models Python substring containment `pat in s`. -/
def hasSub (pat : List Char) : List Char → Bool
  | [] => isStartOf pat []
  | c :: cs => isStartOf pat (c :: cs) || hasSub pat cs

/-- Python `pat in s` on strings. -/
def strContains (s pat : String) : Bool :=
  hasSub pat.data s.data

/-- Python `str.lower()`: lowercase each character (the keywords matched by
the classifier are ASCII, where this agrees with Python). -/
def lowerStr (s : String) : String :=
  ⟨s.data.map Char.toLower⟩

/-! ## `src/pci_mock_logic.py` — `PCIMockLogic` -/

/-- `PCIMockLogic.get_customer_segment` (src/pci_mock_logic.py lines 11-28):
ordered first-match keyword rules over the lowered query and history. -/
def get_customer_segment (user_query : String) (chat_history_str : String) : String :=
  let query_lower := lowerStr user_query
  let history_lower := lowerStr chat_history_str
  if strContains query_lower "cancel" || strContains query_lower "unsubscri"
      || strContains history_lower "leave" then
    "churn_risk"
  else if strContains query_lower "price" || strContains query_lower "discount"
      || strContains query_lower "deal" then
    "price_sensitive"
  else if strContains query_lower "premium" || strContains query_lower "upgrade"
      || strContains history_lower "high-end" then
    "high_value_prospect"
  else if strContains history_lower "new user" || strContains history_lower "first time"
      || strContains query_lower "how to start" then
    "new_customer"
  else
    "standard"

/-- `PCIMockLogic.get_suggestion` (src/pci_mock_logic.py lines 30-45):
the canned suggestion catalog, keyed by segment label. -/
def get_suggestion (customer_segment : String) : String :=
  if customer_segment = "churn_risk" then
    "We understand your concern. Would you like to speak with a retention specialist or would a 20% discount on your next month\x27s service help?"
  else if customer_segment = "price_sensitive" then
    "We have several budget-friendly options available. Would you be interested in our \x27Basic Plan\x27 or current promotional deals?"
  else if customer_segment = "high_value_prospect" then
    "Based on your interest, our \x27Premium Plus\x27 package offers exclusive features and priority support. Would you like to know more?"
  else if customer_segment = "new_customer" then
    "Welcome! To help you get started, we recommend exploring our interactive tutorial or checking out our \x27Quick Start Guide\x27."
  else if customer_segment = "standard" then
    "I can help with that. What specific information or product are you looking for?"
  else
    "I\x27m not sure what to suggest based on that segment, but I\x27m here to help with your query."

/-! ## Spec-side definitions (for refinement claims) -/

/-- The Segmentation Classifier written from the spec §4.1 rule list
(first match wins, case-insensitive substring matching):
1. query has "cancel"/"unsubscri" or history has "leave" → churn_risk;
2. else query has "price"/"discount"/"deal" → price_sensitive;
3. else query has "premium"/"upgrade" or history has "high-end" → high_value_prospect;
4. else history has "new user"/"first time" or query has "how to start" → new_customer;
5. else standard. -/
def spec_classify (user_query : String) (history_text : String) : String :=
  let q := lowerStr user_query
  let h := lowerStr history_text
  if strContains q "cancel" then "churn_risk"
  else if strContains q "unsubscri" then "churn_risk"
  else if strContains h "leave" then "churn_risk"
  else if strContains q "price" then "price_sensitive"
  else if strContains q "discount" then "price_sensitive"
  else if strContains q "deal" then "price_sensitive"
  else if strContains q "premium" then "high_value_prospect"
  else if strContains q "upgrade" then "high_value_prospect"
  else if strContains h "high-end" then "high_value_prospect"
  else if strContains h "new user" then "new_customer"
  else if strContains h "first time" then "new_customer"
  else if strContains q "how to start" then "new_customer"
  else "standard"

example : get_customer_segment "I want to CANCEL, what a price" "" = "churn_risk" := by decide
example : spec_classify "I want to CANCEL, what a price" "" = "churn_risk" := by decide
example : get_customer_segment "hello there" "he was a new user" = "new_customer" := by rfl

/-! ## Messages, graph state, memory (`src/state_definition.py`, langchain types) -/

/-- The langchain message kinds used by the agent: `HumanMessage`,
`AIMessage`, and the `("system", ...)` message of the prompt template.
These are the spec data model roles user/assistant plus the system
instruction; `MsgType.human` is the user role and `MsgType.ai` the
assistant role. -/
inductive MsgType
  | human
  | ai
  | system
deriving DecidableEq, Repr

/-- The langchain `msg.type` string of each message kind, as interpolated
into the history text by `query_processing_node`. -/
def MsgType.typeStr : MsgType → String
  | .human => "human"
  | .ai => "ai"
  | .system => "system"

/-- A langchain message: role tag plus text content (spec data model Turn). -/
structure Message where
  type : MsgType
  content : String
deriving DecidableEq, Repr

/-- `GraphState` (src/state_definition.py): the record threaded through the
three graph nodes. -/
structure GraphState where
  messages : List Message
  user_query : String
  customer_segment : String
  suggestion : String
  error : String
  chat_history_str : String
deriving DecidableEq, Repr

/-- Modelled from the spec (§4.3 Conversation Memory, buffer mode): the
backing store of langchain `ConversationBufferMemory` with
`return_messages=True` is the full ordered list of turns. The library
itself is an external dependency, not part of the repository source. -/
abbrev Memory := List Message

/-- Modelled from the spec (§4.3): `load()` returns the ordered turn list.
Embeds the langchain call `memory.load_memory_variables({})["chat_history"]`. -/
def Memory.load_memory_variables (m : Memory) : List Message := m

/-- Modelled from the spec (§4.3): `append(userText, assistantText)`. Embeds
the langchain call `memory.save_context({"input": u}, {"output": a})`, which
appends a `HumanMessage` and an `AIMessage` in that order. -/
def Memory.save_context (m : Memory) (input output : String) : Memory :=
  m ++ [Message.mk MsgType.human input, Message.mk MsgType.ai output]

/-- Errors the pipeline can surface: a failing external completion call
(spec `ServiceError`), or the Python `IndexError` of `messages[-1]` on an
empty list in `query_processing_node`. -/
inductive AgentError
  | serviceError (msg : String)
  | indexError
deriving DecidableEq, Repr

/-- The external completion service (spec §6): an ordered role-tagged
message list in, a single text completion out, or a failure. The embedding
takes it as a parameter of the pipeline. -/
def Llm := List Message → Except AgentError String

/-! ## `src/langgraph_agent.py` — nodes and `run_agent` -/

/-- One rendered history line, the f-string of `query_processing_node`:
`f"{msg.type}: {msg.content}"`. -/
def histLine (msg : Message) : String :=
  msg.type.typeStr ++ ": " ++ msg.content

/-- The flattened history text built by `query_processing_node`:
`"\n".join([f"{msg.type}: {msg.content}" for msg in history])`. -/
def renderHistory (history : List Message) : String :=
  String.intercalate "\n" (history.map histLine)

/-- `query_processing_node` (src/langgraph_agent.py lines 58-80): reads the
last message as the current user query (Python `messages[-1]`, an
`IndexError` on an empty list), loads the memory and stores its rendered
text in `chat_history_str`. -/
def query_processing_node (mem : Memory) (state : GraphState) : Except AgentError GraphState :=
  match state.messages.getLast? with
  | none => Except.error AgentError.indexError
  | some lastMsg =>
    Except.ok { state with
      user_query := lastMsg.content
      chat_history_str := renderHistory mem.load_memory_variables }

/-- `customer_segmentation_node` (src/langgraph_agent.py lines 82-93):
stores the classifier result in `customer_segment`. -/
def customer_segmentation_node (state : GraphState) : GraphState :=
  { state with
    customer_segment := get_customer_segment state.user_query state.chat_history_str }

/-- The system instruction f-string of `suggestion_node`
(src/langgraph_agent.py line 113). -/
def system_instruction (customer_segment suggestion : String) : String :=
  "You are a helpful customer service AI. The user\x27s query has been analyzed, and their segment is \x27"
    ++ customer_segment
    ++ "\x27. A preliminary suggestion is: \x27"
    ++ suggestion
    ++ "\x27. Based on this, and the conversation history, formulate a friendly and helpful response. If the preliminary suggestion is sufficient, you can incorporate it directly. Otherwise, elaborate or rephrase to be most helpful to the user."

/-- The system-instruction template written from the spec §4.4 Respond
state, for comparison with the code's `system_instruction`. -/
def spec_system_instruction (segment suggestion : String) : String :=
  "You are a helpful customer service AI. The user\x27s query has been analyzed, and their segment is \x27"
    ++ segment
    ++ "\x27. A preliminary suggestion is: \x27"
    ++ suggestion
    ++ "\x27. Based on this, and the conversation history, formulate a friendly and helpful response. If the preliminary suggestion is sufficient, you can incorporate it directly. Otherwise, elaborate or rephrase to be most helpful to the user."

/-- `suggestion_node` (src/langgraph_agent.py lines 95-127): looks up the
draft suggestion, builds the prompt (the state's messages followed by the
system instruction, as in `ChatPromptTemplate.from_messages`), invokes the
completion service, and appends its reply as an `AIMessage`. A completion
failure propagates (there is no try/except in the node). -/
def suggestion_node (llm : Llm) (state : GraphState) : Except AgentError GraphState :=
  let suggestion := get_suggestion state.customer_segment
  let state1 := { state with suggestion := suggestion }
  match llm (state1.messages ++
      [Message.mk MsgType.system (system_instruction state.customer_segment suggestion)]) with
  | Except.error e => Except.error e
  | Except.ok response =>
    Except.ok { state1 with messages := state1.messages ++ [Message.mk MsgType.ai response] }

/-- The initial `GraphState` built by `run_agent`
(src/langgraph_agent.py lines 150-159): prior history plus the new
`HumanMessage`; `chat_history_str` is left unset (empty). -/
def initial_state (history : List Message) (user_input : String) : GraphState :=
  { messages := history ++ [Message.mk MsgType.human user_input]
    user_query := user_input
    customer_segment := ""
    suggestion := ""
    error := ""
    chat_history_str := "" }

/-- The response extraction of `run_agent` (src/langgraph_agent.py lines
163-175): start from the state's draft `suggestion`; if the message list is
non-empty and its last element is an `AIMessage`, use that message's
content instead. -/
def extract_response (state : GraphState) : String :=
  match state.messages.getLast? with
  | none => state.suggestion
  | some lastMessage =>
    match lastMessage.type with
    | MsgType.ai => lastMessage.content
    | _ => state.suggestion

/-- `run_agent` (src/langgraph_agent.py lines 144-186): loads memory, runs
the graph (the three nodes in the order fixed by the `add_edge` calls),
extracts the response and saves the (input, response) pair to memory. The
pair returned is (outcome, memory after the call): an exception raised by a
node propagates out of `run_agent` and leaves the memory unchanged, since
`save_context` only runs after the graph completes. -/
def run_agent (llm : Llm) (mem : Memory) (user_input : String) :
    Except AgentError String × Memory :=
  let chatHistory := mem.load_memory_variables
  match query_processing_node mem (initial_state chatHistory user_input) with
  | Except.error e => (Except.error e, mem)
  | Except.ok s1 =>
    let s2 := customer_segmentation_node s1
    match suggestion_node llm s2 with
    | Except.error e => (Except.error e, mem)
    | Except.ok finalState =>
      let aiResponse := extract_response finalState
      (Except.ok aiResponse, mem.save_context user_input aiResponse)

/-- The generic fallback text of the session host (`app.py` line 69),
substituted outside `run_agent` when the latter raises. -/
def fallback_text : String :=
  "I\x27m sorry, I encountered an error. Please try again."

example :
    run_agent (fun _ => Except.ok "Sure!") ([] : List Message) "hello" =
      (Except.ok "Sure!",
        ([Message.mk MsgType.human "hello", Message.mk MsgType.ai "Sure!"] : List Message)) := by
  rfl

example :
    run_agent (fun _ => Except.error (AgentError.serviceError "network")) ([] : List Message) "hello" =
      (Except.error (AgentError.serviceError "network"), ([] : List Message)) := by
  rfl

/-! ## Helper lemmas -/

@[simp]
lemma Memory.load_memory_variables_eq (m : Memory) : m.load_memory_variables = m := rfl

lemma isStartOf_self_append (p t : List Char) : isStartOf p (p ++ t) = true := by
  induction p with
  | nil => cases t <;> rfl
  | cons c cs ih => simp [isStartOf, ih]

lemma hasSub_of_isStartOf {p s : List Char} (h : isStartOf p s = true) :
    hasSub p s = true := by
  cases s with
  | nil => cases p with
    | nil => rfl
    | cons c cs => simp [isStartOf] at h
  | cons c cs => simp [hasSub, h]

lemma hasSub_self_append (p t : List Char) : hasSub p (p ++ t) = true :=
  hasSub_of_isStartOf (isStartOf_self_append p t)

lemma hasSub_append_left (s : List Char) {p t : List Char} (h : hasSub p t = true) :
    hasSub p (s ++ t) = true := by
  induction s with
  | nil => simpa using h
  | cons c cs ih =>
    simp only [List.cons_append, hasSub, Bool.or_eq_true]
    exact Or.inr ih

lemma strContains_self_append (p t : String) : strContains (p ++ t) p = true := by
  simpa [strContains, String.data_append] using hasSub_self_append p.data t.data

lemma strContains_append_left (s : String) {t p : String} (h : strContains t p = true) :
    strContains (s ++ t) p = true := by
  simpa [strContains, String.data_append] using hasSub_append_left s.data h

lemma strContains_self (p : String) : strContains p p = true := by
  simpa using strContains_self_append p ""

lemma intercalate_go_pull (s p q : String) (bs : List String) :
    String.intercalate.go (p ++ q) s bs = p ++ String.intercalate.go q s bs := by
  induction bs generalizing q with
  | nil => simp [String.intercalate.go]
  | cons b bs ih =>
    show String.intercalate.go (p ++ q ++ s ++ b) s bs
        = p ++ String.intercalate.go (q ++ s ++ b) s bs
    rw [String.append_assoc, String.append_assoc, ← String.append_assoc q s b, ih]

lemma intercalate_cons_cons (s a b : String) (bs : List String) :
    String.intercalate s (a :: b :: bs) = a ++ s ++ String.intercalate s (b :: bs) := by
  show String.intercalate.go (a ++ s ++ b) s bs = a ++ s ++ String.intercalate.go b s bs
  rw [String.append_assoc, ← String.empty_append b, ← String.append_assoc,
    ← String.append_assoc, intercalate_go_pull, String.empty_append]
  simp [String.append_assoc]

lemma renderHistory_nil : renderHistory [] = "" := rfl

lemma renderHistory_singleton (m : Message) : renderHistory [m] = histLine m := rfl

lemma renderHistory_cons (m : Message) {ms : List Message} (h : ms ≠ []) :
    renderHistory (m :: ms) = histLine m ++ "\n" ++ renderHistory ms := by
  cases ms with
  | nil => exact absurd rfl h
  | cons b bs => simpa [renderHistory] using intercalate_cons_cons "\n" (histLine m) (histLine b) (bs.map histLine)

lemma strContains_renderHistory_of_mem {m : Message} {ms : List Message} (h : m ∈ ms) :
    strContains (renderHistory ms) (histLine m) = true := by
  induction ms with
  | nil => cases h
  | cons x xs ih =>
    rcases List.mem_cons.mp h with rfl | hmem
    · cases xs with
      | nil => simpa [renderHistory_singleton] using strContains_self (histLine m)
      | cons b bs =>
        rw [renderHistory_cons m (by simp), String.append_assoc]
        exact strContains_self_append _ _
    · have hxs : xs ≠ [] := by rintro rfl; cases hmem
      rw [renderHistory_cons x hxs]
      exact strContains_append_left _ (ih hmem)

/-- The prompt that `suggestion_node` passes to the completion service when
reached through `run_agent`: the loaded history, the just-added user turn,
then the system instruction built from the detected segment and the draft
suggestion (a derived abbreviation, used to state properties of
`run_agent`). -/
def pipeline_prompt (mem : Memory) (input : String) : List Message :=
  (mem.load_memory_variables ++ [Message.mk MsgType.human input]) ++
    [Message.mk MsgType.system
      (system_instruction
        (get_customer_segment input (renderHistory mem.load_memory_variables))
        (get_suggestion
          (get_customer_segment input (renderHistory mem.load_memory_variables))))]

lemma pipeline_prompt_eq (mem : Memory) (input : String) :
    pipeline_prompt mem input =
      (mem ++ [Message.mk MsgType.human input]) ++
        [Message.mk MsgType.system
          (system_instruction (get_customer_segment input (renderHistory mem))
            (get_suggestion (get_customer_segment input (renderHistory mem))))] := rfl

/-- The single-step characterization of `run_agent`: the completion service
is invoked exactly once, with the loaded history plus the new user turn
followed by the system instruction built from the detected segment and the
draft suggestion; its failure propagates with the memory unchanged, and its
reply is returned and saved. -/
lemma run_agent_eq (llm : Llm) (mem : Memory) (input : String) :
    run_agent llm mem input =
      match llm (pipeline_prompt mem input) with
      | Except.error e => (Except.error e, mem)
      | Except.ok r => (Except.ok r, mem.save_context input r) := by
  show (match query_processing_node mem (initial_state mem input) with
      | Except.error e => (Except.error e, mem)
      | Except.ok s1 =>
        match suggestion_node llm (customer_segmentation_node s1) with
        | Except.error e => (Except.error e, mem)
        | Except.ok finalState =>
          (Except.ok (extract_response finalState),
            mem.save_context input (extract_response finalState))) = _
  rw [query_processing_node]
  simp only [initial_state, List.getLast?_concat]
  rw [customer_segmentation_node]
  rw [suggestion_node]
  simp only [Memory.load_memory_variables_eq]
  rw [pipeline_prompt_eq]
  cases hllm : llm ((mem ++ [Message.mk MsgType.human input]) ++
      [Message.mk MsgType.system
        (system_instruction (get_customer_segment input (renderHistory mem))
          (get_suggestion (get_customer_segment input (renderHistory mem))))]) with
  | error e => simp [hllm]
  | ok r =>
    simp only [hllm]
    simp [extract_response, List.getLast?_concat]

lemma if_or {α : Sort u} (a b : Bool) (x y : α) :
    (if a || b then x else y) = if a then x else if b then x else y := by
  cases a <;> simp

lemma get_customer_segment_mem (q h : String) :
    get_customer_segment q h ∈
      (["churn_risk", "price_sensitive", "high_value_prospect", "new_customer",
        "standard"] : List String) := by
  unfold get_customer_segment
  dsimp only
  split_ifs <;> simp

/-! ## The claims -/

/-- Claim C1: `get_customer_segment` returns the segment given by the
ordered first-match rule list of the spec (churn_risk, then
price_sensitive, then high_value_prospect, then new_customer, then
standard); in particular a query containing "cancel" in any case yields
churn_risk regardless of history, and a query containing both "cancel"
and "price" yields churn_risk (rule 1 wins over rule 2). -/
theorem claim_C1 (q h : String) :
    get_customer_segment q h = spec_classify q h ∧
    (strContains (lowerStr q) "cancel" = true →
      get_customer_segment q h = "churn_risk") ∧
    (strContains (lowerStr q) "cancel" = true ∧ strContains (lowerStr q) "price" = true →
      get_customer_segment q h = "churn_risk") := by
  refine ⟨?_, ?_, ?_⟩
  · simp only [get_customer_segment, spec_classify, if_or]
  · intro hc
    simp [get_customer_segment, hc]
  · intro hc
    simp [get_customer_segment, hc.1]

/-- Witness for C1 at a concrete query containing both "CANCEL" and
"price". -/
theorem claim_C1_witness :
    get_customer_segment "I want to CANCEL, the price is too high" "" = "churn_risk" :=
  (claim_C1 "I want to CANCEL, the price is too high" "").2.2 (by decide)

/-- Claim C4: `get_suggestion` is deterministic, returns the exact catalog
string for each of the five enumerated segments, returns the fallback text
for any input outside the enumeration, and the query "I want to cancel my
subscription" classifies as churn_risk yielding exactly the churn_risk
catalog string. -/
theorem claim_C4 :
    get_suggestion "churn_risk" =
      "We understand your concern. Would you like to speak with a retention specialist or would a 20% discount on your next month\x27s service help?" ∧
    get_suggestion "price_sensitive" =
      "We have several budget-friendly options available. Would you be interested in our \x27Basic Plan\x27 or current promotional deals?" ∧
    get_suggestion "high_value_prospect" =
      "Based on your interest, our \x27Premium Plus\x27 package offers exclusive features and priority support. Would you like to know more?" ∧
    get_suggestion "new_customer" =
      "Welcome! To help you get started, we recommend exploring our interactive tutorial or checking out our \x27Quick Start Guide\x27." ∧
    get_suggestion "standard" =
      "I can help with that. What specific information or product are you looking for?" ∧
    (∀ s : String,
      s ∉ (["churn_risk", "price_sensitive", "high_value_prospect", "new_customer",
            "standard"] : List String) →
      get_suggestion s =
        "I\x27m not sure what to suggest based on that segment, but I\x27m here to help with your query.") ∧
    get_customer_segment "I want to cancel my subscription" "" = "churn_risk" ∧
    get_suggestion (get_customer_segment "I want to cancel my subscription" "") =
      "We understand your concern. Would you like to speak with a retention specialist or would a 20% discount on your next month\x27s service help?" := by
  refine ⟨rfl, rfl, rfl, rfl, rfl, ?_, by decide, by decide⟩
  intro s hs
  unfold get_suggestion
  split_ifs with h1 h2 h3 h4 h5 <;> simp_all

/-- Witness for C4 at an out-of-enumeration segment label. -/
theorem claim_C4_witness :
    get_suggestion "mystery_segment" =
      "I\x27m not sure what to suggest based on that segment, but I\x27m here to help with your query." :=
  claim_C4.2.2.2.2.2.1 "mystery_segment" (by decide)

/-- Claim C7: `get_customer_segment` is total and its value always lies in
the closed enumeration of the five segment labels. -/
theorem claim_C7 (q h : String) :
    get_customer_segment q h ∈
      (["churn_risk", "price_sensitive", "high_value_prospect", "new_customer",
        "standard"] : List String) :=
  get_customer_segment_mem q h

/-- Claim C8: through the pipeline the unknown-segment fallback branch of
`get_suggestion` is unreachable: the composed result is always one of the
five catalog strings and never the fallback text. -/
theorem claim_C8 (q h : String) :
    get_suggestion (get_customer_segment q h) ≠
      "I\x27m not sure what to suggest based on that segment, but I\x27m here to help with your query." ∧
    get_suggestion (get_customer_segment q h) ∈
      ([get_suggestion "churn_risk", get_suggestion "price_sensitive",
        get_suggestion "high_value_prospect", get_suggestion "new_customer",
        get_suggestion "standard"] : List String) := by
  have hm := get_customer_segment_mem q h
  simp only [List.mem_cons, List.not_mem_nil, or_false] at hm
  rcases hm with h1 | h1 | h1 | h1 | h1 <;> rw [h1] <;> exact ⟨by decide, by decide⟩

/-- Claim C6: the Ingest stage (`query_processing_node`) renders the loaded
history as one line per turn — the turn's role tag, a colon-space, the
content — newline-joined, oldest first, for every sequence of turns
including the empty one (the conversation roles render as "human" for the
user turn and "ai" for the assistant turn). -/
theorem claim_C6 :
    (∀ (mem : Memory) (state : GraphState), state.messages ≠ [] →
      ∃ s, query_processing_node mem state = Except.ok s ∧
        s.chat_history_str = renderHistory mem.load_memory_variables) ∧
    renderHistory [] = "" ∧
    (∀ m : Message, renderHistory [m] = m.type.typeStr ++ ": " ++ m.content) ∧
    (∀ (m : Message) (ms : List Message), ms ≠ [] →
      renderHistory (m :: ms) =
        (m.type.typeStr ++ ": " ++ m.content) ++ "\n" ++ renderHistory ms) := by
  refine ⟨?_, rfl, fun m => rfl, ?_⟩
  · intro mem state h
    unfold query_processing_node
    cases hl : state.messages.getLast? with
    | none => exact absurd (List.getLast?_eq_none_iff.mp hl) h
    | some lastMsg => exact ⟨_, rfl, rfl⟩
  · intro m ms h
    rw [renderHistory_cons m h]
    rfl

/-- Witness for C6: rendering a concrete two-turn history splits as head
line, newline, rendered tail. -/
theorem claim_C6_witness :
    renderHistory [Message.mk MsgType.human "hi", Message.mk MsgType.ai "hello"] =
      ((MsgType.human.typeStr ++ ": " ++ "hi") ++ "\n"
        ++ renderHistory [Message.mk MsgType.ai "hello"]) :=
  claim_C6.2.2.2 (Message.mk MsgType.human "hi") [Message.mk MsgType.ai "hello"] (by decide)

/-- Claim C3: on every invocation of `run_agent` exactly one segment and
one draft suggestion are produced before the completion call, and the
completion call receives the full ordered conversation including the
just-added user turn together with a system instruction built from the
detected segment and the draft suggestion, whose template equals the
spec's system-instruction template verbatim. -/
theorem claim_C3 (llm : Llm) (mem : Memory) (input : String) :
    run_agent llm mem input =
      (match llm ((mem.load_memory_variables ++ [Message.mk MsgType.human input]) ++
          [Message.mk MsgType.system
            (system_instruction
              (get_customer_segment input (renderHistory mem.load_memory_variables))
              (get_suggestion
                (get_customer_segment input (renderHistory mem.load_memory_variables))))]) with
        | Except.error e => (Except.error e, mem)
        | Except.ok r => (Except.ok r, mem.save_context input r)) ∧
    (∀ seg sugg : String, system_instruction seg sugg = spec_system_instruction seg sugg) :=
  ⟨run_agent_eq llm mem input, fun _ _ => rfl⟩

/-- Counterexample to C2 as stated: on a failing completion call,
`run_agent` does not return the generic fallback text and does not append
anything to memory — the `ServiceError` propagates and the memory is left
as it was. -/
theorem claim_C2_counterexample :
    run_agent (fun _ => Except.error (AgentError.serviceError "network failure"))
        ([] : Memory) "hello" =
      (Except.error (AgentError.serviceError "network failure"), ([] : Memory)) ∧
    (run_agent (fun _ => Except.error (AgentError.serviceError "network failure"))
        ([] : Memory) "hello").1 ≠ Except.ok fallback_text := by
  refine ⟨by rfl, ?_⟩
  intro h
  simp [run_agent, query_processing_node, initial_state, suggestion_node,
    customer_segmentation_node] at h

/-- Claim C2 (amended): if the external completion call fails with a
`ServiceError`, `run_agent` propagates that error past its boundary and
leaves the memory unchanged — the fallback text is not produced by
`run_agent` and nothing is appended to memory (the generic fallback text
lives in the session host `app.py`, outside the orchestrator, and the
pipeline record's error field is never written). -/
theorem claim_C2 (mem : Memory) (input errMsg : String) :
    run_agent (fun _ => Except.error (AgentError.serviceError errMsg)) mem input =
      (Except.error (AgentError.serviceError errMsg), mem) := by
  rw [run_agent_eq]

/-- Claim C9: memory updates are atomic with respect to pipeline failure —
`run_agent` saves to memory only after the graph run completes, so whenever
the run ends in an error the memory is exactly what it was before the
invocation, and an always-failing completion call makes `run_agent`
propagate exactly that error with the memory untouched. -/
theorem claim_C9 :
    (∀ (llm : Llm) (mem : Memory) (input : String) (e : AgentError),
      (run_agent llm mem input).1 = Except.error e →
      (run_agent llm mem input).2 = mem) ∧
    (∀ (mem : Memory) (input : String) (e : AgentError),
      run_agent (fun _ => Except.error e) mem input = (Except.error e, mem)) := by
  constructor
  · intro llm mem input e h
    rw [run_agent_eq] at h ⊢
    cases hl : llm (pipeline_prompt mem input) with
    | error e1 => simp [hl]
    | ok r => rw [hl] at h; simp at h
  · intro mem input e
    rw [run_agent_eq]

/-- Witness for C9: a concrete failing run leaves the concrete memory
unchanged. -/
theorem claim_C9_witness :
    (run_agent (fun _ => Except.error (AgentError.serviceError "quota exceeded"))
        ([Message.mk MsgType.human "earlier"] : Memory) "hi").2 =
      ([Message.mk MsgType.human "earlier"] : Memory) :=
  claim_C9.1 (fun _ => Except.error (AgentError.serviceError "quota exceeded"))
    [Message.mk MsgType.human "earlier"] "hi" (AgentError.serviceError "quota exceeded")
    (by rfl)

/-- Claim C10: the response extraction of `run_agent` falls back to the
draft suggestion, not a generic error text: with an empty message list or
a non-AI last message it yields the state's draft suggestion, with an AI
last message it yields that message's content; and whatever response
`run_agent` returns is exactly what it saves to memory. -/
theorem claim_C10 :
    (∀ s : GraphState, s.messages = [] → extract_response s = s.suggestion) ∧
    (∀ (s : GraphState) (lastMsg : Message), s.messages.getLast? = some lastMsg →
      lastMsg.type ≠ MsgType.ai → extract_response s = s.suggestion) ∧
    (∀ (s : GraphState) (lastMsg : Message), s.messages.getLast? = some lastMsg →
      lastMsg.type = MsgType.ai → extract_response s = lastMsg.content) ∧
    (∀ (llm : Llm) (mem : Memory) (input r : String) (mem2 : Memory),
      run_agent llm mem input = (Except.ok r, mem2) →
      mem2 = mem.save_context input r) := by
  refine ⟨?_, ?_, ?_, ?_⟩
  · intro s h
    simp [extract_response, h]
  · intro s lastMsg hl ht
    obtain ⟨t, c⟩ := lastMsg
    unfold extract_response
    rw [hl]
    cases t with
    | ai => exact absurd rfl ht
    | human => rfl
    | system => rfl
  · intro s lastMsg hl ht
    obtain ⟨t, c⟩ := lastMsg
    dsimp only at ht
    subst ht
    unfold extract_response
    rw [hl]
  · intro llm mem input r mem2 h
    rw [run_agent_eq] at h
    cases hl : llm (pipeline_prompt mem input) with
    | error e => rw [hl] at h; simp at h
    | ok r1 =>
      rw [hl] at h
      simp only [Prod.mk.injEq, Except.ok.injEq] at h
      rw [← h.2, h.1]

/-- Witness for C10: a concrete state with an empty message list yields its
draft suggestion. -/
theorem claim_C10_witness :
    extract_response (GraphState.mk [] "q" "seg" "the draft" "" "") = "the draft" :=
  claim_C10.1 (GraphState.mk [] "q" "seg" "the draft" "" "") (by rfl)

/-- Claim C5: in buffer mode, `save_context` followed by
`load_memory_variables` returns the prior turn sequence extended with the
user and assistant turns in order (round-trip); consequently, after a
successful `run_agent` call, the history text computed by the next call's
ingest stage contains the first call's user turn line and assistant turn
line. -/
theorem claim_C5 :
    (∀ (m : Memory) (u a : String),
      (m.save_context u a).load_memory_variables =
        m.load_memory_variables ++
          [Message.mk MsgType.human u, Message.mk MsgType.ai a]) ∧
    (∀ (llm : Llm) (mem : Memory) (u1 r1 : String) (mem1 : Memory) (u2 : String)
        (s : GraphState),
      run_agent llm mem u1 = (Except.ok r1, mem1) →
      query_processing_node mem1 (initial_state mem1.load_memory_variables u2) =
        Except.ok s →
      strContains s.chat_history_str (histLine (Message.mk MsgType.human u1)) = true ∧
      strContains s.chat_history_str (histLine (Message.mk MsgType.ai r1)) = true) := by
  constructor
  · intro m u a
    rfl
  · intro llm mem u1 r1 mem1 u2 s hrun hq
    rw [run_agent_eq] at hrun
    cases hl : llm (pipeline_prompt mem u1) with
    | error e => rw [hl] at hrun; simp at hrun
    | ok r =>
      rw [hl] at hrun
      simp only [Prod.mk.injEq, Except.ok.injEq] at hrun
      obtain ⟨rfl, hmem1⟩ := hrun
      have hch : s.chat_history_str = renderHistory mem1.load_memory_variables := by
        unfold query_processing_node at hq
        rw [show (initial_state mem1.load_memory_variables u2).messages.getLast? =
            some (Message.mk MsgType.human u2) from List.getLast?_concat _] at hq
        cases hq
        rfl
      rw [hch, ← hmem1]
      constructor
      · exact strContains_renderHistory_of_mem (by simp [Memory.save_context])
      · exact strContains_renderHistory_of_mem (by simp [Memory.save_context])

/-- Witness for C5: a concrete first run followed by a concrete second
ingest whose history text contains both turn lines of the first run. -/
theorem claim_C5_witness :
    strContains "human: hello\nai: Sure!" (histLine (Message.mk MsgType.human "hello")) = true ∧
    strContains "human: hello\nai: Sure!" (histLine (Message.mk MsgType.ai "Sure!")) = true :=
  claim_C5.2 (fun _ => Except.ok "Sure!") ([] : Memory) "hello" "Sure!"
    ([Message.mk MsgType.human "hello", Message.mk MsgType.ai "Sure!"] : Memory) "thanks"
    (GraphState.mk
      [Message.mk MsgType.human "hello", Message.mk MsgType.ai "Sure!",
        Message.mk MsgType.human "thanks"]
      "thanks" "" "" "" "human: hello\nai: Sure!")
    (by rfl) (by rfl)
